import Mathlib

/-!
Shallow embedding of the task-routing core of `research-mcp-tool`
(`src/research_mcp/routing.py`) and of the cost-estimate tool of
`src/research_mcp/server.py`, together with theorems settling the
specification claims about them.

Python strings become `String`, lists become `List`, dicts become
association lists (Python dict keys are unique; lookup returns the first
match), `None`-returning lookups become `Option`, and raised exceptions
become `Except` errors.  The two `ValueError`s raised by the router are
distinguished by raise site, matching the spec's error taxonomy
(`UnknownTask` for the raise in `route_task`, `NoModelAvailable` for the
raise in `validate_or_fallback`).
-/

namespace ResearchMcp

/-- Error kinds raised by the router.  Both are `ValueError` in the source;
the constructor records the raise site (the spec's error-kind taxonomy) and
the message string built at that site. -/
inductive RouteError where
  | unknownTask (msg : String) : RouteError
  | noModelAvailable (msg : String) : RouteError
deriving DecidableEq, Repr

/-- The validated routing configuration: `config['tasks']` as an association
list from task name to model identifier, and `config['fallbacks']` in
declared order. -/
structure RoutingConfig where
  tasks : List (String × String)
  fallbacks : List String
deriving DecidableEq, Repr

/-- A `RoutingConfig` that passes `TaskRouter._validate_config`: both
sections non-empty. -/
def RoutingConfig.valid (c : RoutingConfig) : Prop :=
  c.tasks ≠ [] ∧ c.fallbacks ≠ []

instance (c : RoutingConfig) : Decidable c.valid := by
  unfold RoutingConfig.valid; infer_instance

/-- Source `TaskRouter.get_model_for_task`: `self.config['tasks'].get(task)`. -/
def get_model_for_task (c : RoutingConfig) (task : String) : Option String :=
  (c.tasks.find? (fun p => p.1 = task)).map (·.2)

/-- Source `TaskRouter.get_fallbacks`: `self.config['fallbacks'].copy()` — as a
value, the copy has the same contents (the aliasing aspect of `.copy()` is
modelled separately by the heap model below). -/
def get_fallbacks (c : RoutingConfig) : List String :=
  c.fallbacks

/-- Source `TaskRouter.get_available_tasks`: `list(self.config['tasks'].keys())`. -/
def get_available_tasks (c : RoutingConfig) : List String :=
  c.tasks.map (·.1)

/-- Python `', '.join(l)` on a list of strings. -/
def joinComma : List String → String
  | [] => ""
  | [x] => x
  | x :: rest => x ++ ", " ++ joinComma rest

/-- Python `s.lower()`, modelled character by character (the identifiers the
router handles are ASCII `provider/model` tokens). -/
def pyLower (s : String) : String :=
  ⟨s.data.map Char.toLower⟩

/-- Membership of `s.lower()` in `{m.lower() for m in avail}`: set
membership is extensional, so it is the boolean "some element lowers to the
same string". -/
def lowerMem (avail : List String) (s : String) : Bool :=
  avail.any (fun m => pyLower m == pyLower s)

/-- Source `TaskRouter.validate_or_fallback`: return `model_name` if its lowered
form is in the lowered available set, else the first configured fallback
whose lowered form is, else raise
`ValueError("Neither model '…' nor any fallbacks are available")`. -/
def validate_or_fallback (c : RoutingConfig) (model_name : String)
    (available_models : List String) : Except RouteError String :=
  if lowerMem available_models model_name then
    .ok model_name
  else
    match c.fallbacks.find? (fun fb => lowerMem available_models fb) with
    | some fb => .ok fb
    | none => .error (.noModelAvailable
        ("Neither model '" ++ model_name ++ "' nor any fallbacks are available"))

/-- The message of the `UnknownTask` error raised by `route_task`. -/
def unknownTaskMsg (c : RoutingConfig) (task : String) : String :=
  "Unknown task '" ++ task ++ "'. Available tasks: " ++
    joinComma (get_available_tasks c)

/-- Source `TaskRouter.route_task`: look the task up; `if not model:` — i.e. the
lookup returned `None` or the empty string — raise the `UnknownTask`
`ValueError`, otherwise delegate to `validate_or_fallback`. -/
def route_task (c : RoutingConfig) (task : String)
    (available_models : List String) : Except RouteError String :=
  match get_model_for_task c task with
  | none => .error (.unknownTask (unknownTaskMsg c task))
  | some model =>
      if model = "" then
        .error (.unknownTask (unknownTaskMsg c task))
      else
        validate_or_fallback c model available_models

instance : DecidableEq (Except RouteError String) := fun a b =>
  match a, b with
  | .ok x, .ok y => if h : x = y then .isTrue (by rw [h]) else .isFalse (by simp [h])
  | .error x, .error y =>
      if h : x = y then .isTrue (by rw [h]) else .isFalse (by simp [h])
  | .ok _, .error _ => .isFalse (by simp)
  | .error _, .ok _ => .isFalse (by simp)

example : route_task ⟨[("research", "vendor/big")], ["vendor/small"]⟩
    "research" ["vendor/big", "vendor/small"] = .ok "vendor/big" := by decide

example : route_task ⟨[("research", "vendor/big")], ["vendor/small"]⟩
    "research" ["vendor/small"] = .ok "vendor/small" := by decide

example : route_task ⟨[("research", "vendor/big")], ["vendor/small"]⟩
    "research" ["other/model"] = .error (.noModelAvailable
      "Neither model 'vendor/big' nor any fallbacks are available") := by decide

example : route_task ⟨[("research", "vendor/big")], ["vendor/small"]⟩
    "ux" ["vendor/big"] = .error (.unknownTask
      "Unknown task 'ux'. Available tasks: research") := by decide

example : validate_or_fallback ⟨[("t", "M")], ["F"]⟩ "Vendor/Big"
    ["vendor/BIG"] = .ok "Vendor/Big" := by decide

/-! ### Helper lemmas about `List.find?` and `lowerMem` -/

lemma find?_first_spec {α : Type} (p : α → Bool) :
    ∀ (l : List α) (x : α), l.find? p = some x →
      p x = true ∧ ∃ l1 l2, l = l1 ++ x :: l2 ∧ ∀ y ∈ l1, p y = false := by
  intro l
  induction l with
  | nil => intro x h; simp [List.find?] at h
  | cons a t ih =>
      intro x h
      by_cases ha : p a = true
      · rw [List.find?_cons_of_pos _ ha] at h
        cases h
        exact ⟨ha, [], t, rfl, by simp⟩
      · rw [List.find?_cons_of_neg _ (by simpa using ha)] at h
        obtain ⟨hp, l1, l2, rfl, hnone⟩ := ih x h
        refine ⟨hp, a :: l1, l2, rfl, ?_⟩
        intro y hy
        rcases List.mem_cons.mp hy with rfl | hy
        · simpa using ha
        · exact hnone y hy

lemma find?_isSome_of_mem {α : Type} (p : α → Bool) :
    ∀ (l : List α) (x : α), x ∈ l → p x = true → ∃ y, l.find? p = some y := by
  intro l
  induction l with
  | nil => intro x hx; simp at hx
  | cons a t ih =>
      intro x hx hp
      by_cases ha : p a = true
      · exact ⟨a, List.find?_cons_of_pos _ ha⟩
      · rcases List.mem_cons.mp hx with rfl | hx
        · exact absurd hp ha
        · obtain ⟨y, hy⟩ := ih x hx hp
          exact ⟨y, by rw [List.find?_cons_of_neg _ (by simpa using ha)]; exact hy⟩

lemma lowerMem_iff (avail : List String) (s : String) :
    lowerMem avail s = true ↔ ∃ m ∈ avail, pyLower m = pyLower s := by
  unfold lowerMem
  rw [List.any_eq_true]
  simp only [beq_iff_eq]

lemma lowerMem_perm {avail avail' : List String} (h : avail'.Perm avail)
    (s : String) : lowerMem avail' s = lowerMem avail s := by
  unfold lowerMem
  rw [Bool.eq_iff_iff, List.any_eq_true, List.any_eq_true]
  constructor
  · rintro ⟨m, hm, he⟩; exact ⟨m, h.mem_iff.mp hm, he⟩
  · rintro ⟨m, hm, he⟩; exact ⟨m, h.mem_iff.mpr hm, he⟩

/-! ### C1 — case-preserving direct match -/

/-- C1 (counterexample): the claim quantifies over *every* string
`preferred_model`.  Take the config whose task `"t"` is configured to the
empty-string model and `available_models = [""]`.  The empty string matches
an available entry up to letter case, and `validate_or_fallback` does
return it unchanged, but `route_task "t"` does *not* return it: the
source's `if not model:` treats the empty string like a missing task and
raises the `UnknownTask` error instead. -/
theorem routing_c1_counterexample :
    get_model_for_task ⟨[("t", "")], ["f"]⟩ "t" = some "" ∧
    lowerMem [""] "" = true ∧
    validate_or_fallback ⟨[("t", "")], ["f"]⟩ "" [""] = .ok "" ∧
    route_task ⟨[("t", "")], ["f"]⟩ "t" [""] ≠ .ok "" := by decide

/-- C1 (amended): for a valid config, if some entry of `available_models`
equals `preferred` up to letter case then `validate_or_fallback` returns
`preferred` exactly as given — the input's casing, not the matched entry's —
and, provided the configured model identifier is non-empty, `route_task`
on a task configured to that model returns the same string. -/
theorem validate_or_fallback_preserves_input_casing
    (c : RoutingConfig) (task preferred : String) (avail : List String)
    (hc : c.valid)
    (hmatch : ∃ m ∈ avail, pyLower m = pyLower preferred) :
    validate_or_fallback c preferred avail = .ok preferred ∧
    (preferred ≠ "" → get_model_for_task c task = some preferred →
      route_task c task avail = .ok preferred) := by
  have hb : lowerMem avail preferred = true := (lowerMem_iff _ _).mpr hmatch
  constructor
  · unfold validate_or_fallback
    rw [hb]
    rfl
  · intro hne hlook
    simp only [route_task, hlook, if_neg hne]
    unfold validate_or_fallback
    rw [hb]
    rfl

/-- Witness for `validate_or_fallback_preserves_input_casing` at a concrete
config, task and available list. -/
theorem validate_or_fallback_preserves_input_casing_witness :
    validate_or_fallback ⟨[("t", "Vendor/Big")], ["f"]⟩ "Vendor/Big"
        ["vendor/BIG"] = .ok "Vendor/Big" ∧
    ("Vendor/Big" ≠ "" →
      get_model_for_task ⟨[("t", "Vendor/Big")], ["f"]⟩ "t" =
        some "Vendor/Big" →
      route_task ⟨[("t", "Vendor/Big")], ["f"]⟩ "t" ["vendor/BIG"] =
        .ok "Vendor/Big") :=
  validate_or_fallback_preserves_input_casing ⟨[("t", "Vendor/Big")], ["f"]⟩
    "t" "Vendor/Big" ["vendor/BIG"] (by decide)
    ⟨"vendor/BIG", by decide, by decide⟩

/-! ### C2 — ordered fallback selection -/

/-- C2: when the preferred model has no case-insensitive match but some
configured fallback does, `validate_or_fallback` returns the first fallback
in declared order whose lowered form is available — all earlier fallbacks
are unavailable — and the result is invariant under permuting
`available_models`, so it never depends on positions in that list. -/
theorem fallback_declared_order
    (c : RoutingConfig) (preferred : String) (avail : List String)
    (hc : c.valid)
    (hnomatch : ∀ m ∈ avail, pyLower m ≠ pyLower preferred)
    (hsome : ∃ fb ∈ c.fallbacks, ∃ m ∈ avail, pyLower m = pyLower fb) :
    (∃ fb l1 l2, c.fallbacks = l1 ++ fb :: l2 ∧
      validate_or_fallback c preferred avail = .ok fb ∧
      (∃ m ∈ avail, pyLower m = pyLower fb) ∧
      ∀ fb' ∈ l1, ∀ m ∈ avail, pyLower m ≠ pyLower fb') ∧
    ∀ avail' : List String, avail'.Perm avail →
      validate_or_fallback c preferred avail' =
        validate_or_fallback c preferred avail := by
  have hbpref : lowerMem avail preferred = false := by
    rw [Bool.eq_false_iff]
    intro h
    obtain ⟨m, hm, he⟩ := (lowerMem_iff _ _).mp h
    exact hnomatch m hm he
  constructor
  · obtain ⟨fb0, hfb0, m0, hm0, he0⟩ := hsome
    obtain ⟨fb, hfind⟩ := find?_isSome_of_mem (fun fb => lowerMem avail fb)
      c.fallbacks fb0 hfb0 ((lowerMem_iff _ _).mpr ⟨m0, hm0, he0⟩)
    obtain ⟨hpfb, l1, l2, hsplit, hearlier⟩ :=
      find?_first_spec (fun fb => lowerMem avail fb) c.fallbacks fb hfind
    refine ⟨fb, l1, l2, hsplit, ?_, (lowerMem_iff _ _).mp hpfb, ?_⟩
    · unfold validate_or_fallback
      rw [hbpref, hfind]
      rfl
    · intro fb' hfb' m hm he
      have : lowerMem avail fb' = true := (lowerMem_iff _ _).mpr ⟨m, hm, he⟩
      rw [hearlier fb' hfb'] at this
      exact Bool.false_ne_true this
  · intro avail' hperm
    unfold validate_or_fallback
    rw [lowerMem_perm hperm]
    have : (fun fb => lowerMem avail' fb) = fun fb => lowerMem avail fb := by
      funext fb
      exact lowerMem_perm hperm fb
    rw [this]

/-- Witness for `fallback_declared_order`: fallbacks `["A", "B"]` with both
available (lower-cased, `"b"` listed before `"a"`) select `"A"`. -/
theorem fallback_declared_order_witness :
    ((∃ fb l1 l2, (RoutingConfig.mk [("t", "X")] ["A", "B"]).fallbacks
        = l1 ++ fb :: l2 ∧
      validate_or_fallback ⟨[("t", "X")], ["A", "B"]⟩ "X" ["b", "a"]
        = .ok fb ∧
      (∃ m ∈ ["b", "a"], pyLower m = pyLower fb) ∧
      ∀ fb' ∈ l1, ∀ m ∈ ["b", "a"], pyLower m ≠ pyLower fb') ∧
    ∀ avail' : List String, avail'.Perm ["b", "a"] →
      validate_or_fallback ⟨[("t", "X")], ["A", "B"]⟩ "X" avail' =
        validate_or_fallback ⟨[("t", "X")], ["A", "B"]⟩ "X" ["b", "a"]) :=
  fallback_declared_order ⟨[("t", "X")], ["A", "B"]⟩ "X" ["b", "a"]
    (by decide) (by decide) ⟨"A", by decide, "a", by decide, by decide⟩

/-! ### C3 — fallback exhaustion -/

/-- The resolver `validate_or_fallback` raises only the `NoModelAvailable` error, never
`UnknownTask`. -/
lemma validate_or_fallback_not_unknown (c : RoutingConfig) (m : String)
    (avail : List String) (msg : String) :
    validate_or_fallback c m avail ≠ .error (.unknownTask msg) := by
  unfold validate_or_fallback
  split
  · simp
  · split <;> simp

/-- C3 (counterexample): with task `"t"` configured to the empty-string
model, fallbacks `["f"]` and available models `["x"]`, nothing matches:
`validate_or_fallback` does fail with `NoModelAvailable`, but `route_task`
on the task configured to that model fails with `UnknownTask` instead (the
source's `if not model:` fires before resolution), so the claim's
`route_task` part is false. -/
theorem routing_c3_counterexample :
    get_model_for_task ⟨[("t", "")], ["f"]⟩ "t" = some "" ∧
    lowerMem ["x"] "" = false ∧
    lowerMem ["x"] "f" = false ∧
    validate_or_fallback ⟨[("t", "")], ["f"]⟩ "" ["x"] =
      .error (.noModelAvailable
        "Neither model '' nor any fallbacks are available") ∧
    route_task ⟨[("t", "")], ["f"]⟩ "t" ["x"] =
      .error (.unknownTask "Unknown task 't'. Available tasks: t") ∧
    route_task ⟨[("t", "")], ["f"]⟩ "t" ["x"] ≠
      .error (.noModelAvailable
        "Neither model '' nor any fallbacks are available") := by decide

/-- C3 (amended): if neither the preferred model nor any configured
fallback matches any available entry case-insensitively,
`validate_or_fallback` fails with `NoModelAvailable` and the message
contains the originally requested identifier; `route_task` on a task
configured to that model fails identically provided the configured model
identifier is non-empty. -/
theorem no_model_available_exhaustion
    (c : RoutingConfig) (task preferred : String) (avail : List String)
    (hc : c.valid)
    (hnopref : ∀ m ∈ avail, pyLower m ≠ pyLower preferred)
    (hnofb : ∀ fb ∈ c.fallbacks, ∀ m ∈ avail, pyLower m ≠ pyLower fb) :
    (∃ pre post, validate_or_fallback c preferred avail =
      .error (.noModelAvailable (pre ++ preferred ++ post))) ∧
    validate_or_fallback c preferred avail =
      .error (.noModelAvailable
        ("Neither model '" ++ preferred ++ "' nor any fallbacks are available")) ∧
    (preferred ≠ "" → get_model_for_task c task = some preferred →
      route_task c task avail =
        .error (.noModelAvailable
          ("Neither model '" ++ preferred ++ "' nor any fallbacks are available"))) := by
  have hbpref : lowerMem avail preferred = false := by
    rw [Bool.eq_false_iff]
    intro h
    obtain ⟨m, hm, he⟩ := (lowerMem_iff _ _).mp h
    exact hnopref m hm he
  have hfind : c.fallbacks.find? (fun fb => lowerMem avail fb) = none := by
    cases hf : c.fallbacks.find? (fun fb => lowerMem avail fb) with
    | none => rfl
    | some fb =>
        exfalso
        obtain ⟨hp, l1, l2, hsplit, _⟩ :=
          find?_first_spec (fun fb => lowerMem avail fb) c.fallbacks fb hf
        obtain ⟨m, hm, he⟩ := (lowerMem_iff _ _).mp hp
        have hmem : fb ∈ c.fallbacks := by
          rw [hsplit]
          exact List.mem_append_right _ (List.mem_cons_self _ _)
        exact hnofb fb hmem m hm he
  have hval : validate_or_fallback c preferred avail =
      .error (.noModelAvailable
        ("Neither model '" ++ preferred ++ "' nor any fallbacks are available")) := by
    unfold validate_or_fallback
    rw [hbpref, hfind]
    rfl
  refine ⟨⟨"Neither model '", "' nor any fallbacks are available", hval⟩, hval, ?_⟩
  intro hne hlook
  simp only [route_task, hlook, if_neg hne]
  exact hval

/-- Witness for `no_model_available_exhaustion` at a concrete config and
available list where nothing matches. -/
theorem no_model_available_exhaustion_witness :
    (∃ pre post, validate_or_fallback ⟨[("r", "vendor/big")], ["vendor/small"]⟩
      "vendor/big" ["other/model"] =
        .error (.noModelAvailable (pre ++ "vendor/big" ++ post))) ∧
    validate_or_fallback ⟨[("r", "vendor/big")], ["vendor/small"]⟩
      "vendor/big" ["other/model"] =
      .error (.noModelAvailable
        ("Neither model '" ++ "vendor/big" ++ "' nor any fallbacks are available")) ∧
    ("vendor/big" ≠ "" →
      get_model_for_task ⟨[("r", "vendor/big")], ["vendor/small"]⟩ "r" =
        some "vendor/big" →
      route_task ⟨[("r", "vendor/big")], ["vendor/small"]⟩ "r" ["other/model"] =
        .error (.noModelAvailable
          ("Neither model '" ++ "vendor/big" ++ "' nor any fallbacks are available"))) :=
  no_model_available_exhaustion ⟨[("r", "vendor/big")], ["vendor/small"]⟩
    "r" "vendor/big" ["other/model"] (by decide) (by decide) (by decide)

/-! ### C4 — unknown-task detection -/

lemma joinComma_cons_cons (a b : String) (t : List String) :
    joinComma (a :: b :: t) = a ++ ", " ++ joinComma (b :: t) := rfl

/-- Every string in a list is an infix of the Python `', '.join` of that
list. -/
lemma joinComma_contains : ∀ (l : List String), ∀ x ∈ l,
    ∃ p q, joinComma l = p ++ x ++ q := by
  intro l
  induction l with
  | nil => intro x hx; simp at hx
  | cons a t ih =>
      intro x hx
      cases t with
      | nil =>
          rcases List.mem_cons.mp hx with rfl | hx
          · exact ⟨"", "", by simp [joinComma]⟩
          · simp at hx
      | cons b t2 =>
          rcases List.mem_cons.mp hx with rfl | hx
          · exact ⟨"", ", " ++ joinComma (b :: t2), by
              rw [joinComma_cons_cons]
              simp [String.append_assoc]⟩
          · obtain ⟨p, q, hpq⟩ := ih x hx
            exact ⟨a ++ ", " ++ p, q, by
              rw [joinComma_cons_cons, hpq]
              simp [String.append_assoc]⟩

/-- C4 (counterexample): on the config whose task `"t"` is configured to the
empty-string model, the task key is *present* in the `tasks` mapping
(`get_model_for_task` returns it), yet `route_task` still fails with the
`UnknownTask` error — so "fails with UnknownTask exactly when the task key
is absent" is false.  The source's `if not model:` treats a present-but-empty
model like a missing key. -/
theorem routing_c4_counterexample :
    get_model_for_task ⟨[("t", "")], ["f"]⟩ "t" = some "" ∧
    route_task ⟨[("t", "")], ["f"]⟩ "t" ["f"] =
      .error (.unknownTask "Unknown task 't'. Available tasks: t") := by decide

/-- C4 (amended): `route_task` fails with `UnknownTask` exactly when the
task key is absent from the `tasks` mapping *or* is mapped to the empty
string (while `get_model_for_task` itself returns the absent result only
for genuinely missing keys); in that case the message is built from the
task name and the joined list of configured task names, and it contains
every configured task name. -/
theorem route_task_unknown_task_iff
    (c : RoutingConfig) (task : String) (avail : List String)
    (hc : c.valid) :
    ((∃ msg, route_task c task avail = .error (.unknownTask msg)) ↔
      (get_model_for_task c task = none ∨
        get_model_for_task c task = some "")) ∧
    ((get_model_for_task c task = none ∨
        get_model_for_task c task = some "") →
      route_task c task avail = .error (.unknownTask (unknownTaskMsg c task))) ∧
    ∀ name ∈ get_available_tasks c,
      ∃ p q, unknownTaskMsg c task = p ++ name ++ q := by
  refine ⟨?_, ?_, ?_⟩
  · constructor
    · rintro ⟨msg, hmsg⟩
      unfold route_task at hmsg
      cases hlook : get_model_for_task c task with
      | none => exact Or.inl rfl
      | some model =>
          rw [hlook] at hmsg
          simp only at hmsg
          by_cases hm : model = ""
          · subst hm
            exact Or.inr rfl
          · rw [if_neg hm] at hmsg
            exact absurd hmsg (validate_or_fallback_not_unknown c model avail msg)
    · rintro (hlook | hlook) <;>
        · refine ⟨unknownTaskMsg c task, ?_⟩
          simp [route_task, hlook]
  · rintro (hlook | hlook) <;> simp [route_task, hlook]
  · intro name hname
    obtain ⟨p, q, hpq⟩ := joinComma_contains (get_available_tasks c) name hname
    exact ⟨"Unknown task '" ++ task ++ "'. Available tasks: " ++ p, q, by
      rw [unknownTaskMsg, hpq]
      simp [String.append_assoc]⟩

/-- Witness for `route_task_unknown_task_iff` at a concrete two-task config
and an unknown task name. -/
theorem route_task_unknown_task_iff_witness :
    ((∃ msg, route_task ⟨[("x", "mx"), ("y", "my")], ["f"]⟩ "bogus" ["mx"] =
        .error (.unknownTask msg)) ↔
      (get_model_for_task ⟨[("x", "mx"), ("y", "my")], ["f"]⟩ "bogus" = none ∨
        get_model_for_task ⟨[("x", "mx"), ("y", "my")], ["f"]⟩ "bogus" =
          some "")) ∧
    ((get_model_for_task ⟨[("x", "mx"), ("y", "my")], ["f"]⟩ "bogus" = none ∨
        get_model_for_task ⟨[("x", "mx"), ("y", "my")], ["f"]⟩ "bogus" =
          some "") →
      route_task ⟨[("x", "mx"), ("y", "my")], ["f"]⟩ "bogus" ["mx"] =
        .error (.unknownTask
          (unknownTaskMsg ⟨[("x", "mx"), ("y", "my")], ["f"]⟩ "bogus"))) ∧
    ∀ name ∈ get_available_tasks ⟨[("x", "mx"), ("y", "my")], ["f"]⟩,
      ∃ p q, unknownTaskMsg ⟨[("x", "mx"), ("y", "my")], ["f"]⟩ "bogus" =
        p ++ name ++ q :=
  route_task_unknown_task_iff ⟨[("x", "mx"), ("y", "my")], ["f"]⟩ "bogus"
    ["mx"] (by decide)

/-! ### C6 — determinism -/

/-- C6: `route_task` is a pure function of the configuration, the task name
and the available-model list: two calls with identical arguments return
identical results — the same model identifier, or the same error kind with
the same message. -/
theorem route_task_deterministic (c : RoutingConfig) (task : String)
    (avail : List String) (hc : c.valid) :
    route_task c task avail = route_task c task avail := rfl

/-- Witness for `route_task_deterministic` at a concrete valid config. -/
theorem route_task_deterministic_witness :
    route_task ⟨[("r", "vendor/big")], ["vendor/small"]⟩ "r" ["vendor/big"] =
      route_task ⟨[("r", "vendor/big")], ["vendor/small"]⟩ "r" ["vendor/big"] :=
  route_task_deterministic ⟨[("r", "vendor/big")], ["vendor/small"]⟩ "r"
    ["vendor/big"] (by decide)

/-! ### C9 — successful routing returns an available, configured model -/

/-- Successful results of `validate_or_fallback` are either the requested
model itself or one of the configured fallbacks, and in both cases the
lowered result is among the lowered available models. -/
lemma validate_or_fallback_ok_cases (c : RoutingConfig) (model : String)
    (avail : List String) (m : String)
    (h : validate_or_fallback c model avail = .ok m) :
    (∃ a ∈ avail, pyLower a = pyLower m) ∧ (m = model ∨ m ∈ c.fallbacks) := by
  unfold validate_or_fallback at h
  by_cases hb : lowerMem avail model = true
  · rw [if_pos hb] at h
    cases h
    exact ⟨(lowerMem_iff _ _).mp hb, Or.inl rfl⟩
  · rw [if_neg hb] at h
    cases hf : c.fallbacks.find? (fun fb => lowerMem avail fb) with
    | none => rw [hf] at h; cases h
    | some fb =>
        rw [hf] at h
        cases h
        obtain ⟨hp, l1, l2, hsplit, _⟩ :=
          find?_first_spec (fun fb => lowerMem avail fb) c.fallbacks m hf
        refine ⟨(lowerMem_iff _ _).mp hp, Or.inr ?_⟩
        rw [hsplit]
        exact List.mem_append_right _ (List.mem_cons_self _ _)

/-- C9: whenever `route_task` returns a model, that model's lowered form is
among the lowered available models, and the returned identifier is either
the model configured for the task or an element of the configured fallback
list — the router never invents an identifier and never returns an
unavailable one. -/
theorem route_task_success_sound (c : RoutingConfig) (task : String)
    (avail : List String) (m : String) (hc : c.valid)
    (h : route_task c task avail = .ok m) :
    (∃ a ∈ avail, pyLower a = pyLower m) ∧
    (get_model_for_task c task = some m ∨ m ∈ c.fallbacks) := by
  unfold route_task at h
  cases hlook : get_model_for_task c task with
  | none => rw [hlook] at h; cases h
  | some model =>
      rw [hlook] at h
      simp only at h
      by_cases hm : model = ""
      · rw [if_pos hm] at h; cases h
      · rw [if_neg hm] at h
        obtain ⟨hin, hcase⟩ := validate_or_fallback_ok_cases c model avail m h
        refine ⟨hin, ?_⟩
        rcases hcase with rfl | hfb
        · exact Or.inl rfl
        · exact Or.inr hfb

/-- Witness for `route_task_success_sound`: a successful route on a
concrete config. -/
theorem route_task_success_sound_witness :
    (∃ a ∈ ["Vendor/BIG"], pyLower a = pyLower "vendor/big") ∧
    (get_model_for_task ⟨[("r", "vendor/big")], ["vendor/small"]⟩ "r" =
        some "vendor/big" ∨
      "vendor/big" ∈ (RoutingConfig.mk [("r", "vendor/big")]
        ["vendor/small"]).fallbacks) :=
  route_task_success_sound ⟨[("r", "vendor/big")], ["vendor/small"]⟩ "r"
    ["Vendor/BIG"] "vendor/big" (by decide) (by decide)

/-! ### C7 — `get_fallbacks` returns a defensive copy

To express aliasing and in-place mutation of Python lists, the fallback
list is placed in an explicit heap of list cells addressed by index.
`list.copy()` allocates a fresh cell holding the same contents. -/

/-- A heap of Python list objects; an address is an index into `cells`. -/
structure PyHeap where
  cells : List (List String)
deriving DecidableEq

/-- Dereference a list address. -/
def readCell (h : PyHeap) (a : Nat) : List String :=
  h.cells.getD a []

/-- In-place mutation of the list object at address `a`. -/
def writeCell (h : PyHeap) (a : Nat) (v : List String) : PyHeap :=
  ⟨h.cells.set a v⟩

/-- Allocate a fresh list object; returns the new heap and its address. -/
def allocCell (h : PyHeap) (v : List String) : PyHeap × Nat :=
  (⟨h.cells ++ [v]⟩, h.cells.length)

/-- Source `TaskRouter.get_fallbacks` with list identity made explicit: the
router's `config['fallbacks']` list lives at `fbAddr`; `.copy()` allocates
a fresh cell with the same contents and `get_fallbacks` returns its
address. -/
def get_fallbacks_heap (h : PyHeap) (fbAddr : Nat) : PyHeap × Nat :=
  allocCell h (readCell h fbAddr)

lemma readCell_alloc (h : PyHeap) (v : List String) :
    readCell (allocCell h v).1 (allocCell h v).2 = v := by
  show (h.cells ++ [v]).getD h.cells.length [] = v
  simp [List.getD_eq_getElem?_getD, List.getElem?_append_right]

lemma readCell_alloc_old (h : PyHeap) (v : List String) (a : Nat)
    (ha : a < h.cells.length) :
    readCell (allocCell h v).1 a = readCell h a := by
  show (h.cells ++ [v]).getD a [] = h.cells.getD a []
  simp [List.getD_eq_getElem?_getD, List.getElem?_append, ha]

lemma readCell_write_ne (h : PyHeap) (a b : Nat) (v : List String)
    (hab : a ≠ b) :
    readCell (writeCell h a v) b = readCell h b := by
  show (h.cells.set a v).getD b [] = h.cells.getD b []
  rw [List.getD_eq_getElem?_getD, List.getElem?_set_ne hab,
    ← List.getD_eq_getElem?_getD]

/-- C7: `get_fallbacks` returns a defensive copy.  The returned list is a
fresh object (distinct address) with the configured contents; mutating it
in place leaves the router's own fallback list unchanged, and a subsequent
`get_fallbacks` still returns the originally configured sequence. -/
theorem get_fallbacks_defensive_copy (h : PyHeap) (fbAddr : Nat)
    (hvalid : fbAddr < h.cells.length) (mutated : List String) :
    (get_fallbacks_heap h fbAddr).2 ≠ fbAddr ∧
    readCell (get_fallbacks_heap h fbAddr).1 (get_fallbacks_heap h fbAddr).2 =
      readCell h fbAddr ∧
    readCell (writeCell (get_fallbacks_heap h fbAddr).1
        (get_fallbacks_heap h fbAddr).2 mutated) fbAddr = readCell h fbAddr ∧
    readCell (get_fallbacks_heap (writeCell (get_fallbacks_heap h fbAddr).1
          (get_fallbacks_heap h fbAddr).2 mutated) fbAddr).1
        (get_fallbacks_heap (writeCell (get_fallbacks_heap h fbAddr).1
          (get_fallbacks_heap h fbAddr).2 mutated) fbAddr).2 =
      readCell h fbAddr := by
  have hne : (get_fallbacks_heap h fbAddr).2 ≠ fbAddr :=
    (Nat.ne_of_lt hvalid).symm
  have hread_after_write :
      readCell (writeCell (get_fallbacks_heap h fbAddr).1
        (get_fallbacks_heap h fbAddr).2 mutated) fbAddr = readCell h fbAddr := by
    rw [readCell_write_ne _ _ _ _ hne]
    exact readCell_alloc_old h _ fbAddr hvalid
  refine ⟨hne, readCell_alloc h _, hread_after_write, ?_⟩
  simp only [get_fallbacks_heap] at hread_after_write ⊢
  rw [readCell_alloc, hread_after_write]

/-- Witness for `get_fallbacks_defensive_copy` on a one-cell heap holding
the configured fallbacks, mutated to a different list. -/
theorem get_fallbacks_defensive_copy_witness :
    (get_fallbacks_heap ⟨[["vendor/small", "vendor/tiny"]]⟩ 0).2 ≠ 0 ∧
    readCell (get_fallbacks_heap ⟨[["vendor/small", "vendor/tiny"]]⟩ 0).1
        (get_fallbacks_heap ⟨[["vendor/small", "vendor/tiny"]]⟩ 0).2 =
      readCell ⟨[["vendor/small", "vendor/tiny"]]⟩ 0 ∧
    readCell (writeCell (get_fallbacks_heap ⟨[["vendor/small", "vendor/tiny"]]⟩ 0).1
        (get_fallbacks_heap ⟨[["vendor/small", "vendor/tiny"]]⟩ 0).2 ["hacked"]) 0 =
      readCell ⟨[["vendor/small", "vendor/tiny"]]⟩ 0 ∧
    readCell (get_fallbacks_heap (writeCell
          (get_fallbacks_heap ⟨[["vendor/small", "vendor/tiny"]]⟩ 0).1
          (get_fallbacks_heap ⟨[["vendor/small", "vendor/tiny"]]⟩ 0).2 ["hacked"]) 0).1
        (get_fallbacks_heap (writeCell
          (get_fallbacks_heap ⟨[["vendor/small", "vendor/tiny"]]⟩ 0).1
          (get_fallbacks_heap ⟨[["vendor/small", "vendor/tiny"]]⟩ 0).2 ["hacked"]) 0).2 =
      readCell ⟨[["vendor/small", "vendor/tiny"]]⟩ 0 :=
  get_fallbacks_defensive_copy ⟨[["vendor/small", "vendor/tiny"]]⟩ 0
    (by decide) ["hacked"]

/-! ### C8 — no router operation mutates the configuration

A `TaskRouter` instance holds its `RoutingConfig`; each method is
translated in state-passing style, returning its result together with the
router state after the call — none of the method bodies assigns to
`self.config`, so the returned state carries the configuration through
unchanged. -/

/-- The router object: `self.config`, already validated. -/
structure TaskRouter where
  config : RoutingConfig
deriving DecidableEq

/-- Method `get_model_for_task`, state-passing. -/
def TaskRouter.get_model_for_taskM (r : TaskRouter) (task : String) :
    Option String × TaskRouter :=
  (get_model_for_task r.config task, r)

/-- Method `get_fallbacks`, state-passing (the returned list is a copy by value).
-/
def TaskRouter.get_fallbacksM (r : TaskRouter) : List String × TaskRouter :=
  (get_fallbacks r.config, r)

/-- Method `get_available_tasks`, state-passing. -/
def TaskRouter.get_available_tasksM (r : TaskRouter) :
    List String × TaskRouter :=
  (get_available_tasks r.config, r)

/-- Method `validate_or_fallback`, state-passing. -/
def TaskRouter.validate_or_fallbackM (r : TaskRouter) (model : String)
    (avail : List String) : Except RouteError String × TaskRouter :=
  (validate_or_fallback r.config model avail, r)

/-- Method `route_task`, state-passing. -/
def TaskRouter.route_taskM (r : TaskRouter) (task : String)
    (avail : List String) : Except RouteError String × TaskRouter :=
  (route_task r.config task avail, r)

/-- C8: every router operation leaves the `RoutingConfig` — the `tasks`
mapping and the `fallbacks` sequence — exactly as it was before the call,
for any arguments; hence any sequence of calls leaves it unchanged. -/
theorem router_ops_no_mutation (r : TaskRouter) (hc : r.config.valid)
    (task model : String) (avail : List String) :
    (r.get_model_for_taskM task).2.config = r.config ∧
    r.get_fallbacksM.2.config = r.config ∧
    r.get_available_tasksM.2.config = r.config ∧
    (r.validate_or_fallbackM model avail).2.config = r.config ∧
    (r.route_taskM task avail).2.config = r.config :=
  ⟨rfl, rfl, rfl, rfl, rfl⟩

/-- Witness for `router_ops_no_mutation` at a concrete router and
arguments. -/
theorem router_ops_no_mutation_witness :
    ((TaskRouter.mk ⟨[("r", "vendor/big")], ["vendor/small"]⟩).get_model_for_taskM
        "r").2.config = RoutingConfig.mk [("r", "vendor/big")] ["vendor/small"] ∧
    (TaskRouter.mk ⟨[("r", "vendor/big")], ["vendor/small"]⟩).get_fallbacksM.2.config =
      RoutingConfig.mk [("r", "vendor/big")] ["vendor/small"] ∧
    (TaskRouter.mk ⟨[("r", "vendor/big")], ["vendor/small"]⟩).get_available_tasksM.2.config =
      RoutingConfig.mk [("r", "vendor/big")] ["vendor/small"] ∧
    ((TaskRouter.mk ⟨[("r", "vendor/big")], ["vendor/small"]⟩).validate_or_fallbackM
        "vendor/big" ["vendor/small"]).2.config =
      RoutingConfig.mk [("r", "vendor/big")] ["vendor/small"] ∧
    ((TaskRouter.mk ⟨[("r", "vendor/big")], ["vendor/small"]⟩).route_taskM
        "r" ["vendor/small"]).2.config =
      RoutingConfig.mk [("r", "vendor/big")] ["vendor/small"] :=
  router_ops_no_mutation (TaskRouter.mk ⟨[("r", "vendor/big")], ["vendor/small"]⟩)
    (by decide) "r" "vendor/big" ["vendor/small"]

/-! ### C5 — configuration validation at construction time

The parsed YAML payload is modelled as a `YVal` tree (mapping keys are
modelled as strings, as they are in every configuration the router
documents).  `TaskRouter.__init__` runs `_load_config` (the payload must
be a mapping) and then `_validate_config` (both sections present, `tasks`
a non-empty dict, `fallbacks` a non-empty list); the final logging line
evaluates `', '.join(fallbacks)`, which raises `TypeError` when a fallback
element is not a string. -/

/-- A parsed YAML value. -/
inductive YVal where
  | str (s : String) : YVal
  | int (n : Int) : YVal
  | bool (b : Bool) : YVal
  | list (l : List YVal) : YVal
  | dict (d : List (String × YVal)) : YVal
  | null : YVal

/-- Python dict lookup (`config['tasks']` existence via `'tasks' in config`).
-/
def lookupKey (d : List (String × YVal)) (k : String) : Option YVal :=
  (d.find? (fun p => p.1 = k)).map (·.2)

/-- Errors during construction: the routing `ValueError`s (the spec's
`ConfigValidationError` kind) and the `TypeError` raised by `str.join` on
non-string elements. -/
inductive PyErr where
  | valueError (msg : String) : PyErr
  | typeError : PyErr
deriving DecidableEq, Repr

/-- Python `isinstance(v, str)`. -/
def isStr : YVal → Bool
  | .str _ => true
  | _ => false

/-- Python `isinstance(v, dict) and v` — a non-empty mapping. -/
def isNonemptyDict : YVal → Bool
  | .dict (_ :: _) => true
  | _ => false

/-- Python `isinstance(v, list) and v` — a non-empty sequence. -/
def isNonemptyList : YVal → Bool
  | .list (_ :: _) => true
  | _ => false

/-- Python `', '.join(v)` succeeds exactly when `v` is a list whose elements are
all strings. -/
def allStrList : YVal → Bool
  | .list l => l.all isStr
  | _ => false

/-- Source `TaskRouter._load_config` after YAML parsing: a non-mapping payload is
rejected with `ValueError("Routing config must be a dictionary")`. -/
def load_config (v : YVal) : Except PyErr (List (String × YVal)) :=
  match v with
  | .dict d => .ok d
  | _ => .error (.valueError "Routing config must be a dictionary")

/-- Source `TaskRouter._validate_config`, including the `TypeError` that
`', '.join(fallbacks)` raises in the final log line when a fallback element
is not a string (the joined task keys are always strings here). -/
def validate_config (d : List (String × YVal)) : Except PyErr Unit :=
  match lookupKey d "tasks" with
  | none => .error (.valueError "Routing config must have 'tasks' section")
  | some tasksVal =>
      match lookupKey d "fallbacks" with
      | none => .error (.valueError "Routing config must have 'fallbacks' section")
      | some fallbacksVal =>
          if isNonemptyDict tasksVal then
            if isNonemptyList fallbacksVal then
              if allStrList fallbacksVal then .ok ()
              else .error .typeError
            else .error (.valueError "'fallbacks' must be a non-empty list")
          else .error (.valueError "'tasks' must be a non-empty dictionary")

/-- Source `TaskRouter.__init__` from parsed payload to validated configuration:
`_load_config` then `_validate_config`. -/
def buildRouterConfig (v : YVal) : Except PyErr (List (String × YVal)) :=
  match load_config v with
  | .error e => .error e
  | .ok d =>
      match validate_config d with
      | .error e => .error e
      | .ok _ => .ok d

/-- C5 (counterexample): a payload whose `tasks` section maps `"t"` to the
integer `123` — not a model identifier — is accepted: construction
succeeds, because `_validate_config` checks only that `tasks` is a
non-empty dict, never the value types.  The claim's "fails … whenever …
`tasks` … is not a non-empty mapping from task-name to model-identifier"
is therefore false. -/
theorem config_c5_counterexample :
    buildRouterConfig (.dict [("tasks", .dict [("t", .int 123)]),
        ("fallbacks", .list [.str "m"])]) =
      .ok [("tasks", .dict [("t", .int 123)]),
        ("fallbacks", .list [.str "m"])] ∧
    isStr (.int 123) = false :=
  ⟨rfl, rfl⟩

/-- C5 (amended): construction fails with a `ValueError` (the
`ConfigValidationError` kind) whose message names the violated rule
whenever the payload is not a mapping, the `tasks` key is missing, the
`fallbacks` key is missing, `tasks` is not a non-empty mapping, or
`fallbacks` is not a non-empty sequence — value types are not validated:
a payload passing those shape checks is accepted whenever every fallback
element is a string, and rejected with a `TypeError` (raised by the
logging `', '.join`) otherwise. -/
theorem config_validation_rules (v : YVal) :
    ((∀ d, v ≠ .dict d) →
      buildRouterConfig v =
        .error (.valueError "Routing config must be a dictionary")) ∧
    (∀ d, v = .dict d → lookupKey d "tasks" = none →
      buildRouterConfig v =
        .error (.valueError "Routing config must have 'tasks' section")) ∧
    (∀ d tv, v = .dict d → lookupKey d "tasks" = some tv →
      lookupKey d "fallbacks" = none →
      buildRouterConfig v =
        .error (.valueError "Routing config must have 'fallbacks' section")) ∧
    (∀ d tv fv, v = .dict d → lookupKey d "tasks" = some tv →
      lookupKey d "fallbacks" = some fv → isNonemptyDict tv = false →
      buildRouterConfig v =
        .error (.valueError "'tasks' must be a non-empty dictionary")) ∧
    (∀ d tv fv, v = .dict d → lookupKey d "tasks" = some tv →
      lookupKey d "fallbacks" = some fv → isNonemptyDict tv = true →
      isNonemptyList fv = false →
      buildRouterConfig v =
        .error (.valueError "'fallbacks' must be a non-empty list")) ∧
    (∀ d tv fv, v = .dict d → lookupKey d "tasks" = some tv →
      lookupKey d "fallbacks" = some fv → isNonemptyDict tv = true →
      isNonemptyList fv = true → allStrList fv = false →
      buildRouterConfig v = .error .typeError) ∧
    (∀ d tv fv, v = .dict d → lookupKey d "tasks" = some tv →
      lookupKey d "fallbacks" = some fv → isNonemptyDict tv = true →
      isNonemptyList fv = true → allStrList fv = true →
      buildRouterConfig v = .ok d) := by
  refine ⟨?_, ?_, ?_, ?_, ?_, ?_, ?_⟩
  · intro hnd
    unfold buildRouterConfig load_config
    cases v with
    | dict d => exact absurd rfl (hnd d)
    | str s => rfl
    | int n => rfl
    | bool b => rfl
    | list l => rfl
    | null => rfl
  · rintro d rfl ht
    simp [buildRouterConfig, load_config, validate_config, ht]
  · rintro d tv rfl ht hf
    simp [buildRouterConfig, load_config, validate_config, ht, hf]
  · rintro d tv fv rfl ht hf htv
    simp [buildRouterConfig, load_config, validate_config, ht, hf, htv]
  · rintro d tv fv rfl ht hf htv hfv
    simp [buildRouterConfig, load_config, validate_config, ht, hf, htv, hfv]
  · rintro d tv fv rfl ht hf htv hfv hstr
    simp [buildRouterConfig, load_config, validate_config, ht, hf, htv, hfv,
      hstr]
  · rintro d tv fv rfl ht hf htv hfv hstr
    simp [buildRouterConfig, load_config, validate_config, ht, hf, htv, hfv,
      hstr]

/-- Witness for `config_validation_rules`: each rule triggered (or passed)
by a concrete payload, with its exact message. -/
theorem config_validation_rules_witness :
    buildRouterConfig (.str "nope") =
      .error (.valueError "Routing config must be a dictionary") ∧
    buildRouterConfig (.dict [("fallbacks", .list [.str "m"])]) =
      .error (.valueError "Routing config must have 'tasks' section") ∧
    buildRouterConfig (.dict [("tasks", .dict [("t", .str "m")])]) =
      .error (.valueError "Routing config must have 'fallbacks' section") ∧
    buildRouterConfig (.dict [("tasks", .dict []),
        ("fallbacks", .list [.str "m"])]) =
      .error (.valueError "'tasks' must be a non-empty dictionary") ∧
    buildRouterConfig (.dict [("tasks", .dict [("t", .str "m")]),
        ("fallbacks", .list [])]) =
      .error (.valueError "'fallbacks' must be a non-empty list") ∧
    buildRouterConfig (.dict [("tasks", .dict [("t", .str "m")]),
        ("fallbacks", .list [.int 5])]) = .error .typeError ∧
    buildRouterConfig (.dict [("tasks", .dict [("t", .str "m")]),
        ("fallbacks", .list [.str "f"])]) =
      .ok [("tasks", .dict [("t", .str "m")]), ("fallbacks", .list [.str "f"])] :=
  ⟨(config_validation_rules (.str "nope")).1 (fun d h => YVal.noConfusion h),
   (config_validation_rules _).2.1 _ rfl rfl,
   (config_validation_rules _).2.2.1 _ (.dict [("t", .str "m")]) rfl rfl rfl,
   (config_validation_rules _).2.2.2.1 _ (.dict [])
     (.list [.str "m"]) rfl rfl rfl rfl,
   (config_validation_rules _).2.2.2.2.1 _ (.dict [("t", .str "m")])
     (.list []) rfl rfl rfl rfl rfl,
   (config_validation_rules _).2.2.2.2.2.1 _ (.dict [("t", .str "m")])
     (.list [.int 5]) rfl rfl rfl rfl rfl rfl,
   (config_validation_rules _).2.2.2.2.2.2 _ (.dict [("t", .str "m")])
     (.list [.str "f"]) rfl rfl rfl rfl rfl rfl⟩

/-! ### C10 — cost estimate falls back to default rates

`MCPServer._cost_estimate` from `server.py`.  The Python float rates are
modelled as exact rationals (the claim concerns which rate entry is
selected and that the call succeeds, not float rounding); the `$…`
six-decimal string rendering of the result is outside the model. -/

/-- One entry of `COST_ESTIMATES`: USD per 1K tokens, with an optional
per-1K-searches rate (Perplexity models). -/
structure CostData where
  input : ℚ
  output : ℚ
  search : Option ℚ
deriving DecidableEq, Repr

/-- The `COST_ESTIMATES` table of `server.py`. -/
def COST_ESTIMATES : List (String × CostData) :=
  [("openai/gpt-4o", ⟨5/1000, 15/1000, none⟩),
   ("openai/gpt-4o-mini", ⟨15/100000, 6/10000, none⟩),
   ("openai/gpt-4", ⟨3/100, 6/100, none⟩),
   ("anthropic/claude-3-5-sonnet", ⟨3/1000, 15/1000, none⟩),
   ("anthropic/claude-3.7-sonnet", ⟨3/1000, 15/1000, none⟩),
   ("anthropic/claude-3-haiku", ⟨25/100000, 125/100000, none⟩),
   ("meta-llama/llama-3.1-70b-instruct", ⟨4/10000, 4/10000, none⟩),
   ("meta-llama/llama-3.1-8b-instruct", ⟨1/10000, 1/10000, none⟩),
   ("perplexity/sonar-deep-research", ⟨5/1000, 5/1000, some 5⟩),
   ("perplexity/sonar-reasoning", ⟨1/1000, 1/1000, some (5/1000)⟩),
   ("default", ⟨1/1000, 2/1000, none⟩)]

/-- The numeric content of a successful `cost_estimate` reply: the three
cost components, the total, and whether the breakdown carries a
`"searches"` entry (added exactly when `search_cost > 0`). -/
structure CostResult where
  input_cost : ℚ
  output_cost : ℚ
  search_cost : ℚ
  estimate_usd : ℚ
  breakdown_has_searches : Bool
deriving DecidableEq, Repr

/-- Source `MCPServer._cost_estimate`: a falsy (`None` or empty) model name is
rejected with `McpError("Model name is required")`; otherwise the rates
are `COST_ESTIMATES.get(model, COST_ESTIMATES["default"])` and the costs
are per-1K-token (and, when the entry has a `search` rate and
`searches > 0`, per-1K-search) products. -/
def cost_estimate (model : Option String)
    (tokens_in tokens_out searches : Int) : Except String CostResult :=
  match model with
  | none => .error "Model name is required"
  | some m =>
      if m = "" then .error "Model name is required"
      else
        let cost_data :=
          (((COST_ESTIMATES.find? (fun p => p.1 = m)).map (·.2)).getD
            ⟨1/1000, 2/1000, none⟩)
        let input_cost := (tokens_in : ℚ) / 1000 * cost_data.input
        let output_cost := (tokens_out : ℚ) / 1000 * cost_data.output
        let search_cost : ℚ :=
          if searches > 0 then
            match cost_data.search with
            | some r => (searches : ℚ) / 1000 * r
            | none => 0
          else 0
        .ok ⟨input_cost, output_cost, search_cost,
          input_cost + output_cost + search_cost,
          decide (search_cost > 0)⟩

instance : DecidableEq (Except String CostResult) := fun a b =>
  match a, b with
  | .ok x, .ok y => if h : x = y then .isTrue (by rw [h]) else .isFalse (by simp [h])
  | .error x, .error y =>
      if h : x = y then .isTrue (by rw [h]) else .isFalse (by simp [h])
  | .ok _, .error _ => .isFalse (by simp)
  | .error _, .ok _ => .isFalse (by simp)

example : cost_estimate (some "") 10 10 0 =
    .error "Model name is required" := rfl

example : cost_estimate none 10 10 0 =
    .error "Model name is required" := rfl

/-- C10: for a non-empty model name absent from the cost table and any
integer token counts, `cost_estimate` succeeds — unknown models are never
rejected — and the estimate uses the default rates: 0.001 USD per 1K input
tokens, 0.002 USD per 1K output tokens, and no search cost. -/
theorem cost_estimate_unknown_model_default
    (m : String) (tokens_in tokens_out searches : Int)
    (hne : m ≠ "")
    (hunknown : COST_ESTIMATES.find? (fun p => p.1 = m) = none) :
    cost_estimate (some m) tokens_in tokens_out searches =
      .ok ⟨(tokens_in : ℚ) / 1000 * (1/1000),
        (tokens_out : ℚ) / 1000 * (2/1000), 0,
        (tokens_in : ℚ) / 1000 * (1/1000) +
          (tokens_out : ℚ) / 1000 * (2/1000) + 0,
        false⟩ := by
  simp only [cost_estimate, if_neg hne, hunknown]
  by_cases hs : searches > 0 <;> simp [hs]

/-- Witness for `cost_estimate_unknown_model_default` at a concrete
unknown model with positive searches. -/
theorem cost_estimate_unknown_model_default_witness :
    cost_estimate (some "acme/unlisted") 120 7 3 =
      .ok ⟨(120 : ℚ) / 1000 * (1/1000), (7 : ℚ) / 1000 * (2/1000), 0,
        (120 : ℚ) / 1000 * (1/1000) + (7 : ℚ) / 1000 * (2/1000) + 0,
        false⟩ :=
  cost_estimate_unknown_model_default "acme/unlisted" 120 7 3
    (by decide) (by decide)

end ResearchMcp
